import Mathlib

/-!
Verification of the long-lived OAuth credential lifecycle manager of this
repository, embedded from `src/server/api/facebook-auth.ts`.

Modelling conventions:
- JavaScript millisecond timestamps and second counts are modelled as `Int`.
  The floating-point division in `needsRefresh`
  (`(expires_at - Date.now()) / 86400000 < 7`) is modelled as the exact
  integer comparison `expires_at - now < 7 * 86400000`; for millisecond
  timestamps in IEEE-754 doubles the two comparisons agree.
- `Date.now()` and every ambient input (environment variables, the provider
  responses to `fetch`, whether the storage medium fails) are gathered into
  an explicit `Env` record; each embedded function takes it as a parameter.
- Asynchronous I/O (the `fetch` calls and the store write) is recorded in an
  explicit effect trace `List Effect`; each fallible function returns
  `Except AuthError _ × List Effect`.
- The JavaScript falsy-default idiom `x || d` is modelled by `jsIntOr`,
  `jsNumOr` and `jsStrOr`: `0`, `undefined` and `""` all select the default,
  exactly as `||` does (in contrast to the nullish `??`).
-/

namespace FacebookAuth

/-- The `TokenStorage` interface of the source: the persisted record shape
returned by `loadStoredToken` (both the file layout and the projection of a
database row). -/
structure TokenStorage where
  access_token : String
  expires_at : Int
  last_refreshed : Int
deriving DecidableEq, Repr

/-- The `TokenInfo` interface of the source: the in-memory result of a token
exchange. `expires_in` is the optional provider field in seconds;
`expires_at` is an absolute millisecond timestamp. -/
structure TokenInfo where
  access_token : String
  token_type : String
  expires_in : Option Int
  expires_at : Int
deriving DecidableEq, Repr

/-- Possible outcomes of the `fetch` against the exchange endpoint in
`exchangeForLongLivedToken`: a JSON body carrying `access_token` (with
optional `token_type` and `expires_in`), a JSON body carrying `error`, or a
thrown transport error. -/
inductive ExchangeResp where
  | success (access_token : String) (token_type : Option String) (expires_in : Option Int)
  | apiError (message : String)
  | networkError
deriving DecidableEq, Repr

/-- The `data` object of the debug_token introspection response. -/
structure IntrospectData where
  is_valid : Bool
  expires_at : Option Int
deriving DecidableEq, Repr

/-- Possible outcomes of the `fetch` in `verifyToken`: a JSON body whose
`data` field may be absent, a JSON body carrying `error`, or a thrown
transport error. -/
inductive IntrospectResp where
  | payload (d : Option IntrospectData)
  | apiError
  | networkError
deriving DecidableEq, Repr

/-- The ambient inputs of one pass through the module: configuration
(environment variables), the clock, the provider responses, and whether the
storage medium fails. -/
structure Env where
  appConfigured : Bool
  now : Int
  exchangeResp : ExchangeResp
  introspectResp : IntrospectResp
  storeFails : Bool
  envToken : Option String
deriving DecidableEq, Repr

/-- One observable I/O action: a call to the provider exchange endpoint, a
call to the provider introspection endpoint, or a completed durable write of
a credential record. -/
inductive Effect where
  | exchangeCall (token : String)
  | introspectCall (token : String)
  | storeSave (record : TokenStorage)
deriving DecidableEq, Repr

/-- The errors the module can throw, one constructor per `throw` site (plus
the storage failure rethrown from `storeToken`). -/
inductive AuthError where
  | configError
  | facebookApiError (message : String)
  | networkError
  | invalidTokenError
  | storageError
  | noTokenAvailable
deriving DecidableEq, Repr

/-- JavaScript `x || d` on a number: `0` is falsy and selects the default. -/
def jsIntOr (x d : Int) : Int :=
  if x = 0 then d else x

/-- JavaScript `x || d` on an optional number: `undefined` and `0` select
the default. -/
def jsNumOr (v : Option Int) (d : Int) : Int :=
  match v with
  | none => d
  | some x => if x = 0 then d else x

/-- JavaScript `x || d` on an optional string: `undefined` and `""` select
the default. -/
def jsStrOr (v : Option String) (d : String) : String :=
  match v with
  | none => d
  | some s => if s = "" then d else s

/-- The expiry computation of `exchangeForLongLivedToken`:
`Date.now() + (data.expires_in || 5184000) * 1000`. -/
def computeExpiry (now : Int) (expires_in : Option Int) : Int :=
  now + (jsNumOr expires_in 5184000) * 1000

/-- The `verifyToken` function: introspect the token; return `false` on a
thrown fetch error, an `error` payload, a missing or invalid `data` object,
or a truthy `expires_at` lying in the past; otherwise `true`. -/
def verifyToken (env : Env) (token : String) : Bool × List Effect :=
  let effs := [Effect.introspectCall token]
  match env.introspectResp with
  | .networkError => (false, effs)
  | .apiError => (false, effs)
  | .payload none => (false, effs)
  | .payload (some d) =>
      if d.is_valid = false then (false, effs)
      else
        match d.expires_at with
        | some e =>
            if e = 0 then (true, effs)
            else if e * 1000 < env.now then (false, effs) else (true, effs)
        | none => (true, effs)

/-- The `storeToken` function, abstracted over the backend choice: on
success it durably writes a record carrying the given access token, the
expiry `tokenInfo.expires_at || Date.now() + 5184000000`, and the current
instant as `last_refreshed`; on a failing medium it throws, which the caller
sees as `storageError`. -/
def storeToken (env : Env) (ti : TokenInfo) : Except AuthError Unit × List Effect :=
  if env.storeFails then (.error .storageError, [])
  else
    (.ok (),
     [.storeSave ⟨ti.access_token, jsIntOr ti.expires_at (env.now + 5184000000), env.now⟩])

/-- The `exchangeForLongLivedToken` function: require the app id and secret,
call the exchange endpoint, throw on an `error` payload or a transport
failure, otherwise build the `TokenInfo` (defaulting `token_type` to
`"bearer"` and `expires_in` to 60 days via `||`), store it, and return it.
The `catch` block rethrows every error, including a storage failure. -/
def exchangeForLongLivedToken (env : Env) (shortLivedToken : String) :
    Except AuthError TokenInfo × List Effect :=
  if env.appConfigured = false then (.error .configError, [])
  else
    match env.exchangeResp with
    | .networkError => (.error .networkError, [.exchangeCall shortLivedToken])
    | .apiError msg => (.error (.facebookApiError msg), [.exchangeCall shortLivedToken])
    | .success tok tt ei =>
        let tokenInfo : TokenInfo :=
          { access_token := tok
            token_type := jsStrOr tt ("bearer")
            expires_in := ei
            expires_at := computeExpiry env.now ei }
        match storeToken env tokenInfo with
        | (.ok _, effs) => (.ok tokenInfo, .exchangeCall shortLivedToken :: effs)
        | (.error e, effs) => (.error e, .exchangeCall shortLivedToken :: effs)

/-- The `refreshLongLivedToken` function: require the app id and secret,
verify the current token via introspection, throw `invalidTokenError` if it
is not valid, otherwise exchange the current token exactly as the bootstrap
path does. -/
def refreshLongLivedToken (env : Env) (currentToken : String) :
    Except AuthError TokenInfo × List Effect :=
  if env.appConfigured = false then (.error .configError, [])
  else
    let v := verifyToken env currentToken
    if v.1 = false then (.error .invalidTokenError, v.2)
    else
      let r := exchangeForLongLivedToken env currentToken
      (r.1, v.2 ++ r.2)

/-- The `needsRefresh` function: true when fewer than 7 days remain until
`expires_at`, taking `Date.now()` as an explicit parameter. -/
def needsRefresh (tokenStorage : TokenStorage) (now : Int) : Bool :=
  decide (tokenStorage.expires_at - now < 7 * 86400000)

/-- The `getValidToken` function, taking the record returned by
`loadStoredToken` as a parameter: with a stored record, refresh when
`needsRefresh` holds, and on any refresh failure fall back to the stored
token; without one, exchange the environment token or throw
`noTokenAvailable`. -/
def getValidToken (env : Env) (stored : Option TokenStorage) :
    Except AuthError String × List Effect :=
  match stored with
  | some s =>
      if needsRefresh s env.now then
        match refreshLongLivedToken env s.access_token with
        | (.ok ti, effs) => (.ok ti.access_token, effs)
        | (.error _, effs) => (.ok s.access_token, effs)
      else (.ok s.access_token, [])
  | none =>
      match env.envToken with
      | none => (.error .noTokenAvailable, [])
      | some t =>
          match exchangeForLongLivedToken env t with
          | (.ok ti, effs) => (.ok ti.access_token, effs)
          | (.error e, effs) => (.error e, effs)

/-- One row of the `facebook_tokens` table of `src/shared/schema.ts`.
Timestamps are millisecond instants. -/
structure DbRow where
  id : Nat
  accessToken : String
  tokenType : String
  expiresAt : Int
  lastRefreshed : Int
  createdAt : Int
  updatedAt : Int
deriving DecidableEq, Repr

/-- The query `select ... orderBy desc(id) limit 1`: the row with the
greatest id, if any. -/
def selectNewest (db : List DbRow) : Option DbRow :=
  db.foldl
    (fun acc r =>
      match acc with
      | none => some r
      | some b => if b.id < r.id then some r else some b)
    none

/-- The database branch of `storeToken`: compute the expiry with the `||`
default, select the newest existing row; update it in place when present
(refreshing `lastRefreshed` and `updatedAt`), otherwise insert a fresh row
whose `createdAt` and `updatedAt` take the column defaults of now. -/
def storeTokenDb (db : List DbRow) (nextId : Nat) (now : Int) (ti : TokenInfo) : List DbRow :=
  let expiresAt := jsIntOr ti.expires_at (now + 5184000000)
  match selectNewest db with
  | some existing =>
      db.map fun r =>
        if r.id = existing.id then
          { r with
              accessToken := ti.access_token
              tokenType := ti.token_type
              expiresAt := expiresAt
              lastRefreshed := now
              updatedAt := now }
        else r
  | none =>
      db ++ [{ id := nextId
               accessToken := ti.access_token
               tokenType := ti.token_type
               expiresAt := expiresAt
               lastRefreshed := now
               createdAt := now
               updatedAt := now }]

/-- The database branch of `loadStoredToken`: project the newest row to the
`TokenStorage` shape. -/
def loadStoredTokenDb (db : List DbRow) : Option TokenStorage :=
  (selectNewest db).map fun r => ⟨r.accessToken, r.expiresAt, r.lastRefreshed⟩

/-- One invocation of `storeToken` against the database: the `TokenInfo` it
receives and the value of `Date.now()` during the call. -/
structure StoreCall where
  ti : TokenInfo
  now : Int
deriving DecidableEq, Repr

/-- Run a sequence of `storeToken` calls against an initially empty table,
threading a fresh serial id for inserts. -/
def runStores (calls : List StoreCall) : List DbRow :=
  (calls.foldl (fun acc c => (storeTokenDb acc.1 acc.2 c.now c.ti, acc.2 + 1)) ([], 1)).1

/-!
Interleaving model for the concurrency claims. The source takes no lock and
shares no in-flight promise, so in the Node event loop two concurrent
`getValidToken()` invocations may both complete their `loadStoredToken`
await before either proceeds. Each caller is modelled as a process that
first performs its load as an atomic read of the shared store, after which
its remaining I/O actions and result are fixed (the code reads nothing else
after the load); the scheduler then interleaves the emission of those
actions, applying each completed save to the shared store.
-/

instance {ε α : Type} [DecidableEq ε] [DecidableEq α] : DecidableEq (Except ε α) := fun a b =>
  match a, b with
  | .ok x, .ok y =>
      if h : x = y then isTrue (by rw [h]) else isFalse (by simp [h])
  | .error x, .error y =>
      if h : x = y then isTrue (by rw [h]) else isFalse (by simp [h])
  | .ok _, .error _ => isFalse (by simp)
  | .error _, .ok _ => isFalse (by simp)

/-- One in-flight `getValidToken` caller: not yet loaded, loaded with its
remaining effects still to emit, or finished. -/
inductive Proc where
  | toLoad
  | running (result : Except AuthError String) (rest : List Effect)
  | finished (result : Except AuthError String)
deriving DecidableEq, Repr

/-- The whole system: the shared store, the callers, and the global trace of
emitted effects. -/
structure Sys where
  env : Env
  store : Option TokenStorage
  procs : List Proc
  trace : List Effect
deriving DecidableEq, Repr

/-- A completed save replaces the shared stored record; provider calls do
not change the store. -/
def applyEffect (store : Option TokenStorage) (e : Effect) : Option TokenStorage :=
  match e with
  | .storeSave r => some r
  | _ => store

/-- One atomic step of a single caller: perform the load against the current
store, or emit the next pending effect, or finish. Returns the new process
state, the new store, and the effects emitted by this step. -/
def stepProc (env : Env) (store : Option TokenStorage) (p : Proc) :
    Proc × Option TokenStorage × List Effect :=
  match p with
  | .toLoad =>
      let r := getValidToken env store
      (.running r.1 r.2, store, [])
  | .running res (e :: rest) => (.running res rest, applyEffect store e, [e])
  | .running res [] => (.finished res, store, [])
  | .finished res => (.finished res, store, [])

/-- Step the caller at index `i` of the system. -/
def stepSys (s : Sys) (i : Nat) : Sys :=
  match s.procs.get? i with
  | none => s
  | some p =>
      let r := stepProc s.env s.store p
      { s with store := r.2.1, procs := s.procs.set i r.1, trace := s.trace ++ r.2.2 }

/-- Run the system under an explicit schedule of caller indices. -/
def runSched (s : Sys) : List Nat → Sys
  | [] => s
  | i :: rest => runSched (stepSys s i) rest

/-- The number of exchange requests sent to the provider in a trace. -/
def countExchanges : List Effect → Nat
  | [] => 0
  | .exchangeCall _ :: rest => countExchanges rest + 1
  | _ :: rest => countExchanges rest

/-- Two concurrent `getValidToken` callers over a shared stored record,
before any of them has run. -/
def initSys (env : Env) (s : TokenStorage) : Sys :=
  { env := env, store := some s, procs := [.toLoad, .toLoad], trace := [] }

/-- Modelled from the claim wording only, for comparison with the source
computation `computeExpiry`: `now + (expiresInSeconds ?? defaultSeconds)`
with nullish-coalescing semantics, under which a present value of `0` is
kept rather than replaced by the default. -/
def computeExpirySpec (now : Int) (expires_in : Option Int) : Int :=
  now + (expires_in.getD 5184000) * 1000

/-! Helper lemmas about the embedded functions. -/

lemma verifyToken_effects (env : Env) (t : String) :
    (verifyToken env t).2 = [Effect.introspectCall t] := by
  unfold verifyToken
  rcases env.introspectResp with d | _ | _
  · rcases d with _ | d
    · rfl
    · by_cases hv : d.is_valid = false
      · simp [hv]
      · rcases hd : d.expires_at with _ | e
        · simp [hv, hd]
        · by_cases h0 : e = 0
          · simp [hv, hd, h0]
          · by_cases hlt : e * 1000 < env.now <;> simp [hv, hd, h0, hlt]
  · rfl
  · rfl

lemma refresh_eq_of_invalid (env : Env) (t : String)
    (hc : env.appConfigured = true) (hv : (verifyToken env t).1 = false) :
    refreshLongLivedToken env t =
      (.error .invalidTokenError, [.introspectCall t]) := by
  unfold refreshLongLivedToken
  simp [hc, hv, verifyToken_effects]

lemma refresh_eq_of_valid (env : Env) (t : String)
    (hc : env.appConfigured = true) (hv : (verifyToken env t).1 = true) :
    refreshLongLivedToken env t =
      ((exchangeForLongLivedToken env t).1,
       .introspectCall t :: (exchangeForLongLivedToken env t).2) := by
  unfold refreshLongLivedToken
  simp [hc, hv, verifyToken_effects]

lemma needsRefresh_of_lt (s : TokenStorage) (now : Int)
    (h : s.expires_at - now < 7 * 86400000) :
    needsRefresh s now = true := by
  simp only [needsRefresh, decide_eq_true_eq]
  omega

lemma getValidToken_fallback (env : Env) (s : TokenStorage)
    (hnr : needsRefresh s env.now = true) (e : AuthError)
    (he : (refreshLongLivedToken env s.access_token).1 = .error e) :
    (getValidToken env (some s)).1 = .ok s.access_token := by
  unfold getValidToken
  simp only [hnr, if_true]
  rcases hR : refreshLongLivedToken env s.access_token with ⟨r, effs⟩
  rw [hR] at he
  cases r with
  | ok ti => exact absurd he (by simp)
  | error e2 => rfl

lemma exchange_error_of_network (env : Env) (t : String)
    (hnet : env.exchangeResp = .networkError) :
    ∃ e, (exchangeForLongLivedToken env t).1 = .error e := by
  unfold exchangeForLongLivedToken
  cases hc : env.appConfigured
  · exact ⟨.configError, by simp [hc]⟩
  · exact ⟨.networkError, by simp [hc, hnet]⟩

lemma refresh_error_of_network (env : Env) (t : String)
    (hnet : env.exchangeResp = .networkError) :
    ∃ e, (refreshLongLivedToken env t).1 = .error e := by
  cases hc : env.appConfigured
  · exact ⟨.configError, by unfold refreshLongLivedToken; simp [hc]⟩
  · cases hv : (verifyToken env t).1
    · exact ⟨.invalidTokenError, by rw [refresh_eq_of_invalid env t hc hv]⟩
    · obtain ⟨e, he⟩ := exchange_error_of_network env t hnet
      exact ⟨e, by rw [refresh_eq_of_valid env t hc hv]; exact he⟩

/-! Concrete environments and records used as inputs of the counterexamples
and witnesses below. -/

/-- An environment whose provider rejects both the introspection (token not
valid) and the exchange, at instant 1000000000. -/
def envExpired : Env :=
  ⟨true, 1000000000, .apiError ("Session has expired"),
   .payload (some ⟨false, none⟩), false, none⟩

/-- A stored record whose expiry instant 0 lies in the past of
`envExpired.now`. -/
def storedExpired : TokenStorage := ⟨"oldtoken", 0, 0⟩

/-- An environment where introspection reports valid and the exchange
succeeds with token `"newtok"` and a 60 day `expires_in`. -/
def envOk : Env :=
  ⟨true, 0, .success ("newtok") (some ("bearer")) (some 5184000),
   .payload (some ⟨true, none⟩), false, none⟩

/-- A stored record with exactly one day remaining at instant 0. -/
def storedOneDay : TokenStorage := ⟨"oldtok", 86400000, 0⟩

/-- An environment where the exchange endpoint is unreachable. -/
def envNet : Env :=
  ⟨true, 0, .networkError, .payload (some ⟨true, none⟩), false, none⟩

/-- C1, counterexample: at a concrete expired record whose refresh attempt
fails, `getValidToken` returns the stored token successfully instead of
raising any error, refuting the claim that a `CredentialExpiredError`
propagates to the caller. -/
theorem C1_counterexample :
    storedExpired.expires_at < envExpired.now ∧
    (refreshLongLivedToken envExpired storedExpired.access_token).1 =
      .error .invalidTokenError ∧
    getValidToken envExpired (some storedExpired) =
      (.ok ("oldtoken"), [.introspectCall ("oldtoken")]) := by
  exact ⟨by decide, by decide, by decide⟩

/-- C1, amended: for every stored record whose `expiresAt` lies in the past,
if the refresh attempt fails for any reason, `getValidToken` catches the
failure and returns the previously stored (expired) access token; it raises
nothing. -/
theorem C1_expired_refresh_failure_returns_stored (env : Env) (s : TokenStorage)
    (hexp : s.expires_at < env.now)
    (hfail : ∃ e, (refreshLongLivedToken env s.access_token).1 = Except.error e) :
    (getValidToken env (some s)).1 = Except.ok s.access_token := by
  obtain ⟨e, he⟩ := hfail
  exact getValidToken_fallback env s (needsRefresh_of_lt s env.now (by omega)) e he

/-- C1, witness: the amended statement evaluated at the expired record from
the counterexample. -/
theorem C1_witness :
    (getValidToken envExpired (some storedExpired)).1 =
      Except.ok storedExpired.access_token :=
  C1_expired_refresh_failure_returns_stored envExpired storedExpired (by decide)
    ⟨.invalidTokenError, by decide⟩

/-- C3: for every stored record still in the future and needing refresh, if
the exchange endpoint fails with a transport-level network error, then
`getValidToken` returns the previously stored access token and does not
throw. -/
theorem C3_network_error_degraded (env : Env) (s : TokenStorage)
    (hfut : env.now < s.expires_at)
    (hnr : needsRefresh s env.now = true)
    (hnet : env.exchangeResp = .networkError) :
    (getValidToken env (some s)).1 = Except.ok s.access_token := by
  obtain ⟨e, he⟩ := refresh_error_of_network env s.access_token hnet
  exact getValidToken_fallback env s hnr e he

/-- C3, witness: a record two hours from expiry under an unreachable
exchange endpoint still yields the stored token. -/
theorem C3_witness :
    (getValidToken envNet (some ⟨"old", 7200000, 0⟩)).1 = Except.ok ("old") :=
  C3_network_error_degraded envNet ⟨"old", 7200000, 0⟩ (by decide) (by decide)
    (by decide)

/-- C4: `needsRefresh` is true exactly when strictly fewer than 7 days
remain; it is false at exactly 8 days remaining, true at exactly 6 days
remaining, and false at exactly 7 days remaining (the documented side of the
boundary). -/
theorem C4_needsRefresh_boundary (s : TokenStorage) (now lr : Int) (t : String) :
    (needsRefresh s now = true ↔ s.expires_at - now < 7 * 86400000) ∧
    needsRefresh ⟨t, now + 8 * 86400000, lr⟩ now = false ∧
    needsRefresh ⟨t, now + 6 * 86400000, lr⟩ now = true ∧
    needsRefresh ⟨t, now + 7 * 86400000, lr⟩ now = false := by
  refine ⟨?_, ?_, ?_, ?_⟩ <;>
    simp only [needsRefresh, decide_eq_true_eq, decide_eq_false_iff_not] <;>
    omega

/-- C4, witness: the boundary behaviour evaluated at instant 0. -/
theorem C4_witness :
    needsRefresh ⟨"t", (0 : Int) + 7 * 86400000, 0⟩ 0 = false :=
  (C4_needsRefresh_boundary ⟨"t", 0, 0⟩ 0 0 ("t")).2.2.2

/-- C7: for every stored record with strictly more than 7 days remaining,
`getValidToken` returns the stored access token with an empty effect trace:
no provider call and no store write occur. -/
theorem C7_fresh_no_effects (env : Env) (s : TokenStorage)
    (h : 7 * 86400000 < s.expires_at - env.now) :
    getValidToken env (some s) = (Except.ok s.access_token, []) := by
  have hnr : needsRefresh s env.now = false := by
    simp only [needsRefresh, decide_eq_false_iff_not]
    omega
  unfold getValidToken
  simp [hnr]

/-- C7, witness: a record ten days from expiry is returned with no
effects. -/
theorem C7_witness :
    getValidToken envOk (some ⟨"fresh", 10 * 86400000, 0⟩) =
      (Except.ok ("fresh"), []) :=
  C7_fresh_no_effects envOk ⟨"fresh", 10 * 86400000, 0⟩ (by decide)

/-- An environment whose provider answers the exchange with `expires_in` 0,
a value Facebook uses for tokens without a fixed lifetime. -/
def envZeroExpiry : Env :=
  ⟨true, 0, .success ("long") none (some 0), .payload (some ⟨true, none⟩), false, none⟩

/-- C5, counterexample: when the provider supplies `expires_in = 0`, the
stored expiry is `now + 5184000` seconds, not `now + 0` seconds as the
nullish-coalescing reading of the claim requires, because the source uses
the falsy `||` default. -/
theorem C5_counterexample :
    (exchangeForLongLivedToken envZeroExpiry ("short")).2 =
      [.exchangeCall ("short"), .storeSave ⟨"long", 5184000000, 0⟩] ∧
    computeExpiry 0 (some 0) = 5184000000 ∧
    computeExpirySpec 0 (some 0) = 0 ∧
    computeExpiry 0 (some 0) ≠ computeExpirySpec 0 (some 0) := by
  exact ⟨by decide, by decide, by decide, by decide⟩

/-- C5, amended: the stored expiry equals `now` plus `expires_in` seconds
when the provider supplies a nonzero `expires_in`, and `now` plus 5184000
seconds (60 days) when `expires_in` is omitted or 0, the default being
selected by the falsy `||` rather than `??`; the lifetime is never
unbounded. -/
theorem C5_expiry_computation (env : Env) (tok newTok : String)
    (tt : Option String) (ei : Option Int)
    (hc : env.appConfigured = true)
    (hexch : env.exchangeResp = .success newTok tt ei)
    (hstore : env.storeFails = false) :
    (exchangeForLongLivedToken env tok).2 =
      [.exchangeCall tok,
       .storeSave ⟨newTok, jsIntOr (computeExpiry env.now ei) (env.now + 5184000000),
                   env.now⟩] ∧
    (∀ e : Int, ei = some e → e ≠ 0 → computeExpiry env.now ei = env.now + e * 1000) ∧
    (ei = none ∨ ei = some 0 → computeExpiry env.now ei = env.now + 5184000 * 1000) := by
  refine ⟨?_, ?_, ?_⟩
  · unfold exchangeForLongLivedToken storeToken
    simp [hc, hexch, hstore]
  · intro e he h0
    simp [computeExpiry, jsNumOr, he, h0]
  · rintro (rfl | rfl) <;> simp [computeExpiry, jsNumOr]

/-- C5, witness: the amended statement evaluated at the zero-`expires_in`
environment. -/
theorem C5_witness :
    (exchangeForLongLivedToken envZeroExpiry ("short")).2 =
      [.exchangeCall ("short"),
       .storeSave ⟨"long", jsIntOr (computeExpiry envZeroExpiry.now (some 0))
                     (envZeroExpiry.now + 5184000000), envZeroExpiry.now⟩] :=
  (C5_expiry_computation envZeroExpiry ("short") "long" none (some 0) rfl rfl rfl).1

/-- C6: refresh first introspects the current token; when introspection
reports it not valid, refresh fails immediately with the invalid-token
error and its effect trace holds only the introspection call (no exchange
request); when introspection reports it valid, refresh returns exactly the
result of `exchangeForLongLivedToken` on the current token, prefixed by the
introspection call. -/
theorem C6_refresh_protocol (env : Env) (tok : String)
    (hc : env.appConfigured = true) :
    ((verifyToken env tok).1 = false →
       refreshLongLivedToken env tok =
         (.error .invalidTokenError, [.introspectCall tok])) ∧
    ((verifyToken env tok).1 = true →
       refreshLongLivedToken env tok =
         ((exchangeForLongLivedToken env tok).1,
          .introspectCall tok :: (exchangeForLongLivedToken env tok).2)) :=
  ⟨fun hv => refresh_eq_of_invalid env tok hc hv,
   fun hv => refresh_eq_of_valid env tok hc hv⟩

/-- C6, witness: with an invalid introspection answer, refresh fails with
only the introspection call in its trace. -/
theorem C6_witness :
    refreshLongLivedToken envExpired ("x") =
      (.error .invalidTokenError, [.introspectCall ("x")]) :=
  (C6_refresh_protocol envExpired ("x") rfl).1 (by decide)

/-- An environment where the exchange succeeds but the storage medium
fails. -/
def envStoreFail : Env :=
  ⟨true, 0, .success ("newtok") (some ("bearer")) (some 5184000),
   .payload (some ⟨true, none⟩), true, none⟩

/-- C8, counterexample: with a successful provider exchange but a failing
store, `exchangeForLongLivedToken` rethrows the storage error, and
`getValidToken` returns the old stored token `"oldtok"`, not the newly
refreshed `"newtok"` the claim promises. -/
theorem C8_counterexample :
    envStoreFail.exchangeResp =
      .success ("newtok") (some ("bearer")) (some 5184000) ∧
    (exchangeForLongLivedToken envStoreFail ("oldtok")).1 = .error .storageError ∧
    getValidToken envStoreFail (some storedOneDay) =
      (.ok ("oldtok"), [.introspectCall ("oldtok"), .exchangeCall ("oldtok")]) ∧
    ("oldtok" : String) ≠ "newtok" := by
  exact ⟨by decide, by decide, by decide, by decide⟩

/-- C8, amended: if the provider exchange succeeds during a refresh but
persisting the new record fails, the storage error is rethrown out of
`exchangeForLongLivedToken`, and `getValidToken` catches it and returns the
previously stored access token, not the refreshed one. -/
theorem C8_store_failure_returns_old (env : Env) (s : TokenStorage)
    (newTok : String) (tt : Option String) (ei : Option Int)
    (hc : env.appConfigured = true)
    (hnr : needsRefresh s env.now = true)
    (hv : (verifyToken env s.access_token).1 = true)
    (hexch : env.exchangeResp = .success newTok tt ei)
    (hstore : env.storeFails = true) :
    (exchangeForLongLivedToken env s.access_token).1 = .error .storageError ∧
    (getValidToken env (some s)).1 = .ok s.access_token := by
  have hex : (exchangeForLongLivedToken env s.access_token).1 =
      .error .storageError := by
    unfold exchangeForLongLivedToken storeToken
    simp [hc, hexch, hstore]
  refine ⟨hex, ?_⟩
  have hr : (refreshLongLivedToken env s.access_token).1 = .error .storageError := by
    rw [refresh_eq_of_valid env s.access_token hc hv]
    exact hex
  exact getValidToken_fallback env s hnr _ hr

/-- C8, witness: the amended statement evaluated at the failing-store
environment and the one-day record. -/
theorem C8_witness :
    (exchangeForLongLivedToken envStoreFail storedOneDay.access_token).1 =
      .error .storageError ∧
    (getValidToken envStoreFail (some storedOneDay)).1 =
      .ok storedOneDay.access_token :=
  C8_store_failure_returns_old envStoreFail storedOneDay ("newtok") (some ("bearer"))
    (some 5184000) rfl (by decide) (by decide) rfl rfl

/-- An environment whose provider answers the exchange with an empty
`access_token`. -/
def envEmptyToken : Env :=
  ⟨true, 0, .success ("") none (some 5184000), .payload (some ⟨true, none⟩), false, none⟩

/-- C9, counterexample: a provider response with an empty `access_token`
flows unchecked into the store: the flat-file path durably writes a record
whose access token is empty, and the database path inserts a row whose
`accessToken` column is the empty string. -/
theorem C9_counterexample :
    (exchangeForLongLivedToken envEmptyToken ("short")).2 =
      [.exchangeCall ("short"), .storeSave ⟨"", 5184000000, 0⟩] ∧
    (storeTokenDb [] 1 0 ⟨"", "bearer", some 5184000, 5184000000⟩).map
        DbRow.accessToken = [""] := by
  exact ⟨by decide, by decide⟩

/-- C9, amended: neither backend validates the access token: `storeToken`
persists exactly the access token it is given, empty or not, so the claimed
non-emptiness invariant is not enforced anywhere. -/
theorem C9_no_empty_token_guard (env : Env) (ti : TokenInfo) (nextId : Nat)
    (now : Int) (hstore : env.storeFails = false) :
    (storeToken env ti).2 =
      [.storeSave ⟨ti.access_token, jsIntOr ti.expires_at (env.now + 5184000000),
                   env.now⟩] ∧
    (storeTokenDb [] nextId now ti).map DbRow.accessToken = [ti.access_token] := by
  constructor
  · unfold storeToken
    simp [hstore]
  · unfold storeTokenDb selectNewest
    simp

/-- C9, witness: the amended statement evaluated at an explicitly empty
access token. -/
theorem C9_witness :
    (storeToken envEmptyToken ⟨"", "bearer", none, 5⟩).2 =
      [.storeSave ⟨"", jsIntOr 5 (envEmptyToken.now + 5184000000),
                   envEmptyToken.now⟩] ∧
    (storeTokenDb [] 1 0 ⟨"", "bearer", none, 5⟩).map DbRow.accessToken = [""] :=
  C9_no_empty_token_guard envEmptyToken ⟨"", "bearer", none, 5⟩ 1 0 rfl

/-! Lemmas about the database backend. -/

lemma db_len_cases (db : List DbRow) (h : db.length ≤ 1) :
    db = [] ∨ ∃ r, db = [r] := by
  rcases db with _ | ⟨a, _ | ⟨b, t⟩⟩
  · exact Or.inl rfl
  · exact Or.inr ⟨a, rfl⟩
  · simp only [List.length_cons] at h
    omega

lemma storeTokenDb_nil (n : Nat) (now : Int) (ti : TokenInfo) :
    storeTokenDb [] n now ti =
      [{ id := n
         accessToken := ti.access_token
         tokenType := ti.token_type
         expiresAt := jsIntOr ti.expires_at (now + 5184000000)
         lastRefreshed := now
         createdAt := now
         updatedAt := now }] := by
  unfold storeTokenDb selectNewest
  simp

lemma storeTokenDb_single (r : DbRow) (n : Nat) (now : Int) (ti : TokenInfo) :
    storeTokenDb [r] n now ti =
      [{ r with
           accessToken := ti.access_token
           tokenType := ti.token_type
           expiresAt := jsIntOr ti.expires_at (now + 5184000000)
           lastRefreshed := now
           updatedAt := now }] := by
  unfold storeTokenDb selectNewest
  simp

lemma storeTokenDb_len (db : List DbRow) (n : Nat) (now : Int) (ti : TokenInfo)
    (h : db.length ≤ 1) : (storeTokenDb db n now ti).length ≤ 1 := by
  rcases db_len_cases db h with rfl | ⟨r, rfl⟩
  · rw [storeTokenDb_nil]
    simp
  · rw [storeTokenDb_single]
    simp

lemma runStoresAux_len (calls : List StoreCall) (db : List DbRow) (n : Nat)
    (h : db.length ≤ 1) :
    ((calls.foldl (fun acc c => (storeTokenDb acc.1 acc.2 c.now c.ti, acc.2 + 1))
        (db, n)).1).length ≤ 1 := by
  induction calls generalizing db n with
  | nil => simpa using h
  | cons c rest ih =>
      simp only [List.foldl_cons]
      exact ih _ _ (storeTokenDb_len db n c.now c.ti h)

lemma runStores_len (calls : List StoreCall) : (runStores calls).length ≤ 1 := by
  unfold runStores
  exact runStoresAux_len calls [] 1 (by simp)

lemma runStores_append_one (calls : List StoreCall) (c : StoreCall) :
    runStores (calls ++ [c]) =
      storeTokenDb (runStores calls)
        ((calls.foldl (fun acc c => (storeTokenDb acc.1 acc.2 c.now c.ti, acc.2 + 1))
            ([], 1)).2)
        c.now c.ti := by
  unfold runStores
  rw [List.foldl_append]
  rfl

/-- C10: running any sequence of `storeToken` calls against an initially
empty `facebook_tokens` table leaves exactly one row after the last call,
that row carries the access token, the expiry and the refresh instant of the
most recently completed store (with `lastRefreshed` and `updatedAt` set to
that instant), and `loadStoredToken` projects exactly that row. -/
theorem C10_single_row (calls : List StoreCall) (c : StoreCall) :
    (runStores (calls ++ [c])).length = 1 ∧
    loadStoredTokenDb (runStores (calls ++ [c])) =
      some ⟨c.ti.access_token, jsIntOr c.ti.expires_at (c.now + 5184000000), c.now⟩ ∧
    (∀ r ∈ runStores (calls ++ [c]),
       r.accessToken = c.ti.access_token ∧ r.lastRefreshed = c.now ∧
       r.updatedAt = c.now) := by
  rw [runStores_append_one]
  rcases db_len_cases (runStores calls) (runStores_len calls) with hdb | ⟨r, hdb⟩
  · rw [hdb, storeTokenDb_nil]
    refine ⟨rfl, ?_, ?_⟩
    · unfold loadStoredTokenDb selectNewest
      simp
    · intro r hr
      simp only [List.mem_singleton] at hr
      subst hr
      exact ⟨rfl, rfl, rfl⟩
  · rw [hdb, storeTokenDb_single]
    refine ⟨rfl, ?_, ?_⟩
    · unfold loadStoredTokenDb selectNewest
      simp
    · intro r2 hr2
      simp only [List.mem_singleton] at hr2
      subst hr2
      exact ⟨rfl, rfl, rfl⟩

/-- C10, witness: two concrete stores leave one row, and the load returns
the record of the second store. -/
theorem C10_witness :
    (runStores ([⟨⟨"a", "bearer", some 10, 777⟩, 5⟩] ++
        [⟨⟨"b", "bearer", none, 888⟩, 6⟩])).length = 1 ∧
    loadStoredTokenDb (runStores ([⟨⟨"a", "bearer", some 10, 777⟩, 5⟩] ++
        [⟨⟨"b", "bearer", none, 888⟩, 6⟩])) =
      some ⟨"b", jsIntOr 888 ((6 : Int) + 5184000000), 6⟩ ∧
    (∀ r ∈ runStores ([⟨⟨"a", "bearer", some 10, 777⟩, 5⟩] ++
        [⟨⟨"b", "bearer", none, 888⟩, 6⟩]),
       r.accessToken = "b" ∧ r.lastRefreshed = 6 ∧ r.updatedAt = 6) :=
  C10_single_row [⟨⟨"a", "bearer", some 10, 777⟩, 5⟩] ⟨⟨"b", "bearer", none, 888⟩, 6⟩

/-! Lemmas for the concurrency claim. -/

lemma getValidToken_refresh_success (env : Env) (s : TokenStorage)
    (newTok : String) (tt : Option String) (ei : Option Int)
    (hc : env.appConfigured = true)
    (hnr : needsRefresh s env.now = true)
    (hintro : env.introspectResp = .payload (some ⟨true, none⟩))
    (hexch : env.exchangeResp = .success newTok tt ei)
    (hstore : env.storeFails = false) :
    getValidToken env (some s) =
      (.ok newTok,
       [.introspectCall s.access_token, .exchangeCall s.access_token,
        .storeSave ⟨newTok, jsIntOr (computeExpiry env.now ei) (env.now + 5184000000),
                    env.now⟩]) := by
  have hv : (verifyToken env s.access_token).1 = true := by
    unfold verifyToken
    rw [hintro]
    rfl
  have hex : exchangeForLongLivedToken env s.access_token =
      (.ok ⟨newTok, jsStrOr tt ("bearer"), ei, computeExpiry env.now ei⟩,
       [.exchangeCall s.access_token,
        .storeSave ⟨newTok, jsIntOr (computeExpiry env.now ei) (env.now + 5184000000),
                    env.now⟩]) := by
    unfold exchangeForLongLivedToken storeToken
    simp [hc, hexch, hstore]
  simp only [getValidToken, hnr, if_true,
    refresh_eq_of_valid env s.access_token hc hv, hex]

/-- The schedule in which both callers complete their load before either
emits any I/O, then each runs to completion. -/
def bothLoadFirst : List Nat := [0, 1, 0, 0, 0, 0, 1, 1, 1, 1]

lemma runSched_two_loads (env : Env) (st : Option TokenStorage)
    (res : Except AuthError String) (e1 e2 e3 : Effect)
    (hg : getValidToken env st = (res, [e1, e2, e3])) :
    runSched { env := env, store := st, procs := [.toLoad, .toLoad], trace := [] }
        bothLoadFirst =
      { env := env
        store := applyEffect (applyEffect (applyEffect
            (applyEffect (applyEffect (applyEffect st e1) e2) e3) e1) e2) e3
        procs := [.finished res, .finished res]
        trace := [e1, e2, e3, e1, e2, e3] } := by
  have h0 : stepSys ⟨env, st, [.toLoad, .toLoad], []⟩ 0 =
      ⟨env, st, [.running res [e1, e2, e3], .toLoad], []⟩ := by
    simp [stepSys, stepProc, hg]
  have h1 : stepSys ⟨env, st, [.running res [e1, e2, e3], .toLoad], []⟩ 1 =
      ⟨env, st, [.running res [e1, e2, e3], .running res [e1, e2, e3]], []⟩ := by
    simp [stepSys, stepProc, hg]
  have h2 : stepSys ⟨env, st,
        [.running res [e1, e2, e3], .running res [e1, e2, e3]], []⟩ 0 =
      ⟨env, applyEffect st e1,
        [.running res [e2, e3], .running res [e1, e2, e3]], [e1]⟩ := by
    simp [stepSys, stepProc]
  have h3 : stepSys ⟨env, applyEffect st e1,
        [.running res [e2, e3], .running res [e1, e2, e3]], [e1]⟩ 0 =
      ⟨env, applyEffect (applyEffect st e1) e2,
        [.running res [e3], .running res [e1, e2, e3]], [e1, e2]⟩ := by
    simp [stepSys, stepProc]
  have h4 : stepSys ⟨env, applyEffect (applyEffect st e1) e2,
        [.running res [e3], .running res [e1, e2, e3]], [e1, e2]⟩ 0 =
      ⟨env, applyEffect (applyEffect (applyEffect st e1) e2) e3,
        [.running res [], .running res [e1, e2, e3]], [e1, e2, e3]⟩ := by
    simp [stepSys, stepProc]
  have h5 : stepSys ⟨env, applyEffect (applyEffect (applyEffect st e1) e2) e3,
        [.running res [], .running res [e1, e2, e3]], [e1, e2, e3]⟩ 0 =
      ⟨env, applyEffect (applyEffect (applyEffect st e1) e2) e3,
        [.finished res, .running res [e1, e2, e3]], [e1, e2, e3]⟩ := by
    simp [stepSys, stepProc]
  have h6 : stepSys ⟨env, applyEffect (applyEffect (applyEffect st e1) e2) e3,
        [.finished res, .running res [e1, e2, e3]], [e1, e2, e3]⟩ 1 =
      ⟨env, applyEffect (applyEffect (applyEffect (applyEffect st e1) e2) e3) e1,
        [.finished res, .running res [e2, e3]], [e1, e2, e3, e1]⟩ := by
    simp [stepSys, stepProc]
  have h7 : stepSys ⟨env,
        applyEffect (applyEffect (applyEffect (applyEffect st e1) e2) e3) e1,
        [.finished res, .running res [e2, e3]], [e1, e2, e3, e1]⟩ 1 =
      ⟨env, applyEffect (applyEffect (applyEffect (applyEffect
          (applyEffect st e1) e2) e3) e1) e2,
        [.finished res, .running res [e3]], [e1, e2, e3, e1, e2]⟩ := by
    simp [stepSys, stepProc]
  have h8 : stepSys ⟨env, applyEffect (applyEffect (applyEffect (applyEffect
          (applyEffect st e1) e2) e3) e1) e2,
        [.finished res, .running res [e3]], [e1, e2, e3, e1, e2]⟩ 1 =
      ⟨env, applyEffect (applyEffect (applyEffect (applyEffect (applyEffect
          (applyEffect st e1) e2) e3) e1) e2) e3,
        [.finished res, .running res []], [e1, e2, e3, e1, e2, e3]⟩ := by
    simp [stepSys, stepProc]
  have h9 : stepSys ⟨env, applyEffect (applyEffect (applyEffect (applyEffect
          (applyEffect (applyEffect st e1) e2) e3) e1) e2) e3,
        [.finished res, .running res []], [e1, e2, e3, e1, e2, e3]⟩ 1 =
      ⟨env, applyEffect (applyEffect (applyEffect (applyEffect (applyEffect
          (applyEffect st e1) e2) e3) e1) e2) e3,
        [.finished res, .finished res], [e1, e2, e3, e1, e2, e3]⟩ := by
    simp [stepSys, stepProc]
  show runSched ⟨env, st, [.toLoad, .toLoad], []⟩ [0, 1, 0, 0, 0, 0, 1, 1, 1, 1] = _
  simp only [runSched]
  rw [h0, h1, h2, h3, h4, h5, h6, h7, h8, h9]

/-- C2, counterexample: two concurrent `getValidToken` callers over a record
with one day remaining, under the admissible schedule in which both loads
complete before either refresh writes back (the source takes no lock and
shares no in-flight promise), both run to completion and the provider
receives two exchange requests, refuting the claim that exactly one exchange
is sent. -/
theorem C2_counterexample :
    needsRefresh storedOneDay envOk.now = true ∧
    (runSched (initSys envOk storedOneDay) bothLoadFirst).procs =
      [Proc.finished (.ok ("newtok")), Proc.finished (.ok ("newtok"))] ∧
    countExchanges (runSched (initSys envOk storedOneDay) bothLoadFirst).trace = 2 := by
  have hg := getValidToken_refresh_success envOk storedOneDay ("newtok") (some ("bearer"))
    (some 5184000) rfl (by decide) rfl rfl rfl
  have hrun := runSched_two_loads envOk (some storedOneDay) (.ok ("newtok"))
    (.introspectCall storedOneDay.access_token)
    (.exchangeCall storedOneDay.access_token)
    (.storeSave ⟨"newtok", jsIntOr (computeExpiry envOk.now (some 5184000))
        (envOk.now + 5184000000), envOk.now⟩) hg
  refine ⟨by decide, ?_, ?_⟩
  · rw [show initSys envOk storedOneDay =
        { env := envOk, store := some storedOneDay, procs := [.toLoad, .toLoad],
          trace := [] } from rfl, hrun]
  · rw [show initSys envOk storedOneDay =
        { env := envOk, store := some storedOneDay, procs := [.toLoad, .toLoad],
          trace := [] } from rfl, hrun]
    rfl

/-- C2, amended: the source has no single-flight gate, so concurrent callers
that observe a record needing refresh each perform their own refresh: for
every environment in which the refresh path succeeds, the schedule in which
two concurrent callers both load before either writes back sends exactly two
exchange requests to the provider (one per caller), with both callers
completing. -/
theorem C2_no_single_flight (env : Env) (s : TokenStorage) (newTok : String)
    (tt : Option String) (ei : Option Int)
    (hc : env.appConfigured = true)
    (hnr : needsRefresh s env.now = true)
    (hintro : env.introspectResp = .payload (some ⟨true, none⟩))
    (hexch : env.exchangeResp = .success newTok tt ei)
    (hstore : env.storeFails = false) :
    (runSched (initSys env s) bothLoadFirst).procs =
      [Proc.finished (.ok newTok), Proc.finished (.ok newTok)] ∧
    countExchanges (runSched (initSys env s) bothLoadFirst).trace = 2 := by
  have hg := getValidToken_refresh_success env s newTok tt ei hc hnr hintro hexch hstore
  have hrun := runSched_two_loads env (some s) (.ok newTok)
    (.introspectCall s.access_token) (.exchangeCall s.access_token)
    (.storeSave ⟨newTok, jsIntOr (computeExpiry env.now ei) (env.now + 5184000000),
                 env.now⟩) hg
  unfold initSys
  rw [hrun]
  exact ⟨rfl, rfl⟩

/-- C2, witness: the amended statement evaluated at the concrete one-day
record and successful-refresh environment. -/
theorem C2_witness :
    (runSched (initSys envOk storedOneDay) bothLoadFirst).procs =
      [Proc.finished (.ok ("newtok")), Proc.finished (.ok ("newtok"))] ∧
    countExchanges (runSched (initSys envOk storedOneDay) bothLoadFirst).trace = 2 :=
  C2_no_single_flight envOk storedOneDay ("newtok") (some ("bearer")) (some 5184000)
    rfl (by decide) rfl rfl rfl

end FacebookAuth
